import Mathlib

/-!
Verification of `src/app.py` (securix-swiss/llm-watcher).

The Python program is shallowly embedded: Python dict/list/str/int/bool/None
values become the inductive type `Json`; the external collaborators
(`requests` HTTP calls, the `json` module's `loads`, `jinja2` template
rendering, the Elasticsearch store's response statuses) are parameters,
collected in the structure `Env`; the store writes and deletes performed by
the code are recorded as an explicit trace of `Effect`s, and exceptions are
`Except.error` carrying the message string.  Exception messages produced by
library internals (KeyError, TypeError, AttributeError, HTTPError, json
decode errors) are modelled by fixed non-empty strings; messages the code
itself formats (f-strings) are reproduced from the source.
-/

/-- A Python value as it appears in this program: the JSON-ish universe of
`None`, booleans, integers, strings, lists, and string-keyed dicts. -/
inductive Json where
  | null : Json
  | bool (b : Bool) : Json
  | num (n : Int) : Json
  | str (s : String) : Json
  | arr (xs : List Json) : Json
  | obj (fields : List (String × Json)) : Json

mutual

/-- Decidable equality on `Json` (the automatic derivation does not handle
the nested `List` occurrences). -/
def Json.decEq : (a b : Json) → Decidable (a = b)
  | .null, .null => .isTrue rfl
  | .null, .bool _ => .isFalse (fun h => Json.noConfusion h)
  | .null, .num _ => .isFalse (fun h => Json.noConfusion h)
  | .null, .str _ => .isFalse (fun h => Json.noConfusion h)
  | .null, .arr _ => .isFalse (fun h => Json.noConfusion h)
  | .null, .obj _ => .isFalse (fun h => Json.noConfusion h)
  | .bool _, .null => .isFalse (fun h => Json.noConfusion h)
  | .bool x, .bool y => decidable_of_iff (x = y) (by simp)
  | .bool _, .num _ => .isFalse (fun h => Json.noConfusion h)
  | .bool _, .str _ => .isFalse (fun h => Json.noConfusion h)
  | .bool _, .arr _ => .isFalse (fun h => Json.noConfusion h)
  | .bool _, .obj _ => .isFalse (fun h => Json.noConfusion h)
  | .num _, .null => .isFalse (fun h => Json.noConfusion h)
  | .num _, .bool _ => .isFalse (fun h => Json.noConfusion h)
  | .num x, .num y => decidable_of_iff (x = y) (by simp)
  | .num _, .str _ => .isFalse (fun h => Json.noConfusion h)
  | .num _, .arr _ => .isFalse (fun h => Json.noConfusion h)
  | .num _, .obj _ => .isFalse (fun h => Json.noConfusion h)
  | .str _, .null => .isFalse (fun h => Json.noConfusion h)
  | .str _, .bool _ => .isFalse (fun h => Json.noConfusion h)
  | .str _, .num _ => .isFalse (fun h => Json.noConfusion h)
  | .str x, .str y => decidable_of_iff (x = y) (by simp)
  | .str _, .arr _ => .isFalse (fun h => Json.noConfusion h)
  | .str _, .obj _ => .isFalse (fun h => Json.noConfusion h)
  | .arr _, .null => .isFalse (fun h => Json.noConfusion h)
  | .arr _, .bool _ => .isFalse (fun h => Json.noConfusion h)
  | .arr _, .num _ => .isFalse (fun h => Json.noConfusion h)
  | .arr _, .str _ => .isFalse (fun h => Json.noConfusion h)
  | .arr xs, .arr ys =>
      match Json.decEqList xs ys with
      | .isTrue h => .isTrue (by rw [h])
      | .isFalse h => .isFalse (fun he => h (by injection he))
  | .arr _, .obj _ => .isFalse (fun h => Json.noConfusion h)
  | .obj _, .null => .isFalse (fun h => Json.noConfusion h)
  | .obj _, .bool _ => .isFalse (fun h => Json.noConfusion h)
  | .obj _, .num _ => .isFalse (fun h => Json.noConfusion h)
  | .obj _, .str _ => .isFalse (fun h => Json.noConfusion h)
  | .obj _, .arr _ => .isFalse (fun h => Json.noConfusion h)
  | .obj fs, .obj gs =>
      match Json.decEqFields fs gs with
      | .isTrue h => .isTrue (by rw [h])
      | .isFalse h => .isFalse (fun he => h (by injection he))

/-- Decidable equality on lists of `Json`. -/
def Json.decEqList : (xs ys : List Json) → Decidable (xs = ys)
  | [], [] => .isTrue rfl
  | [], _ :: _ => .isFalse (fun h => List.noConfusion h)
  | _ :: _, [] => .isFalse (fun h => List.noConfusion h)
  | x :: xs, y :: ys =>
      match Json.decEq x y with
      | .isFalse h => .isFalse (fun he => h (by injection he))
      | .isTrue h1 =>
          match Json.decEqList xs ys with
          | .isTrue h2 => .isTrue (by rw [h1, h2])
          | .isFalse h => .isFalse (fun he => h (by injection he))

/-- Decidable equality on `Json` dict field lists. -/
def Json.decEqFields : (xs ys : List (String × Json)) → Decidable (xs = ys)
  | [], [] => .isTrue rfl
  | [], _ :: _ => .isFalse (fun h => List.noConfusion h)
  | _ :: _, [] => .isFalse (fun h => List.noConfusion h)
  | (k, v) :: xs, (k2, w) :: ys =>
      if hk : k = k2 then
        match Json.decEq v w with
        | .isFalse h =>
            .isFalse (fun he => by
              injection he with h1 h2
              exact h (congrArg Prod.snd h1))
        | .isTrue h1 =>
            match Json.decEqFields xs ys with
            | .isTrue h2 => .isTrue (by rw [hk, h1, h2])
            | .isFalse h => .isFalse (fun he => h (by injection he))
      else
        .isFalse (fun he => by
          injection he with h1 h2
          exact hk (congrArg Prod.fst h1))

end

instance : DecidableEq Json := Json.decEq

/-- First value bound to key `k` in an association list (Python dicts have
unique keys, so this is dict lookup). -/
def lookupField : List (String × Json) → String → Option Json
  | [], _ => none
  | (k2, v) :: rest, k => if k2 = k then some v else lookupField rest k

/-- Replace the value at key `k`, or append the binding if absent
(Python dict item assignment). -/
def setField : List (String × Json) → String → Json → List (String × Json)
  | [], k, v => [(k, v)]
  | (k2, w) :: rest, k, v =>
      if k2 = k then (k, v) :: rest else (k2, w) :: setField rest k v

/-- Dict lookup returning `none` on a missing key or a non-dict value. -/
def jget : Json → String → Option Json
  | Json.obj fs, k => lookupField fs k
  | _, _ => none

/-- Python `d.get(k, default)` on a dict (the callers guard `isObj` where
Python would raise AttributeError on a non-dict). -/
def jgetD (j : Json) (k : String) (d : Json) : Json := (jget j k).getD d

/-- Python `d[k] = v` on a dict; identity on non-dicts (callers guard). -/
def jset : Json → String → Json → Json
  | Json.obj fs, k, v => Json.obj (setField fs k v)
  | j, _, _ => j

/-- Is this value a Python dict? -/
def Json.isObj : Json → Bool
  | Json.obj _ => true
  | _ => false

/-- Python subscription `j[k]`: KeyError on a dict missing the key,
TypeError on a non-dict. -/
def getItem (j : Json) (k : String) : Except String Json :=
  match j with
  | Json.obj fs =>
      match lookupField fs k with
      | some v => Except.ok v
      | none => Except.error ("KeyError: " ++ k)
  | _ => Except.error "TypeError: object is not subscriptable"

/-- Python `f"{x}"` interpolation of a value into a URL. List and dict
reprs are abbreviated; no claim depends on them. -/
def pyStr : Json → String
  | Json.null => "None"
  | Json.bool true => "True"
  | Json.bool false => "False"
  | Json.num n => toString n
  | Json.str s => s
  | Json.arr _ => "[...]"
  | Json.obj _ => "\x7b...\x7d"

/-- An HTTP response as seen through `requests`: a status code and a body
text (`r.json()` is modelled as `jsonLoads` applied to the body text). -/
structure HttpResp where
  status : Nat
  text : String

/-- `requests.Response.raise_for_status` raises `HTTPError` exactly for
4xx and 5xx status codes (and returns `None`, which is falsy, otherwise —
so the `raise Exception(...)` lines guarded by `if r.raise_for_status():`
in the source are dead code). -/
def raiseStatus (s : Nat) : Bool := decide (400 ≤ s ∧ s < 600)

/-- Model of the `HTTPError` message raised by `raise_for_status`. -/
def httpError (s : Nat) : String := toString s ++ " Error for request"

/-- The two query filters `get_elasticsearch_docs` can build: the
`match_all` query, or the `bool/must_not exists _llm_watcher.error`
query (`non_error` in the source). -/
inductive EsFilter where
  | matchAll : EsFilter
  | mustNotHaveErrorField : EsFilter
deriving DecidableEq

/-- The search request body built by `get_elasticsearch_docs`:
a filter, a `size`, and an optional ascending sort field. -/
structure EsQuery where
  filter : EsFilter
  size : Nat
  sort : Option String
deriving DecidableEq

/-- Lines 22–50 of `app.py`: start from `match_all` with `size =
batch_size`; if `retry_errors` is set, replace the query with the
must-not-have-`_llm_watcher.error` filter; if `sort_field` is truthy
(non-`None`, non-empty), add the ascending sort. -/
def buildQuery (batch_size : Nat) (retry_errors : Bool) (sort_field : Option String) : EsQuery :=
  { filter := if retry_errors then EsFilter.mustNotHaveErrorField else EsFilter.matchAll
    size := batch_size
    sort := match sort_field with
      | some s => if s = "" then none else some s
      | none => none }

/-- Does a stored document carry an error annotation, i.e. does the field
`_llm_watcher.error` exist in its `_source`? (This is what the
Elasticsearch `exists` query on `_llm_watcher.error` tests.) -/
def hasErrorField (doc : Json) : Bool :=
  match jget doc "_source" with
  | some src =>
      match jget src "_llm_watcher" with
      | some lw => (jget lw "error").isSome
      | none => false
  | none => false

/-- Elasticsearch semantics of the two filters on a stored document. -/
def matchesFilter : EsFilter → Json → Bool
  | EsFilter.matchAll, _ => true
  | EsFilter.mustNotHaveErrorField, d => !hasErrorField d

/-- The store's semantics of a search: the matching documents, at most
`size` of them (external collaborator, per the store's documented query
semantics). -/
def fetchSem (docs : List Json) (q : EsQuery) : List Json :=
  (docs.filter (matchesFilter q.filter)).take q.size

/-- The external collaborators of the core, as oracles: jinja2 rendering,
`json.loads`, the HTTP responses of the Ollama / OpenAI backends and of the
store's `_search`, and the status codes the store answers to document
upserts and deletes (the upsert/delete requests themselves are recorded as
`Effect`s). -/
structure Env where
  render : String → Json → Except String String
  jsonLoads : String → Except String Json
  ollamaResp : Json → String → Json → HttpResp
  openaiResp : Json → String → Json → HttpResp
  searchResp : EsQuery → HttpResp
  upsertStatus : String → String → Json → Nat
  deleteStatus : String → String → Nat

/-- The configuration consumed by the core (validated by `check_args`,
which is outside the core). -/
structure Args where
  watchIndex : String
  batchSize : Nat
  retryErrors : Bool
  sortField : Option String

/-- A store write or delete issued by the program: `upsert index id body`
is `POST {es}/{index}/_doc/{id}` with JSON body, `delete index id` is
`DELETE {es}/{index}/_doc/{id}`. Index and id are the URL-interpolated
strings. -/
inductive Effect where
  | upsert (index : String) (docId : String) (body : Json) : Effect
  | delete (index : String) (docId : String) : Effect
deriving DecidableEq

/-- An observation of one worker cycle: the search request, the
`"Found N documents"` info line, a store effect, or the
`"Processed X documents of Y total. With Z errors"` summary line. -/
inductive Event where
  | search (q : EsQuery) : Event
  | found (n : Nat) : Event
  | eff (e : Effect) : Event
  | summary (processed total errors : Nat) : Event
deriving DecidableEq

/-- Lines 12–63 of `app.py` (`get_elasticsearch_docs`): build the query,
POST it to `{index}/_search`; a 404 yields `[]`; any other 4xx/5xx raises
`HTTPError`; otherwise the result is `r.json().get('hits', {}).get('hits',
[])`.  (A non-dict body or non-dict `hits` raises AttributeError; a
non-list inner `hits` value is modelled as an error since the caller
immediately takes its `len` and iterates it.) -/
def get_elasticsearch_docs (env : Env) (A : Args) : Except String (List Json) :=
  let q := buildQuery A.batchSize A.retryErrors A.sortField
  let r := env.searchResp q
  if r.status = 404 then Except.ok []
  else if raiseStatus r.status then Except.error (httpError r.status)
  else
    match env.jsonLoads r.text with
    | Except.error m => Except.error m
    | Except.ok j =>
        if !j.isObj then Except.error "AttributeError: object has no attribute get"
        else
          let hits1 := jgetD j "hits" (Json.obj [])
          if !hits1.isObj then Except.error "AttributeError: object has no attribute get"
          else
            match jgetD hits1 "hits" (Json.arr []) with
            | Json.arr docs => Except.ok docs
            | _ => Except.error "TypeError: object is not a list"

/-- Lines 111–135 of `app.py` (`ollama_generate`): POST
`{model, prompt, format, stream:false}` to `{ollama_api}/api/generate`;
raise on 4xx/5xx; decode the body (`r.json()`); then
`json.loads(data.get('response', {}))` — a missing or non-string
`response` field makes `json.loads` raise TypeError, and an undecodable
`response` string propagates the json decode error. -/
def ollama_generate (env : Env) (model : Json) (prompt : String) (llm_format : Json) :
    Except String Json :=
  let r := env.ollamaResp model prompt llm_format
  if raiseStatus r.status then Except.error (httpError r.status)
  else
    match env.jsonLoads r.text with
    | Except.error m => Except.error m
    | Except.ok data =>
        if !data.isObj then Except.error "AttributeError: object has no attribute get"
        else
          match jgetD data "response" (Json.obj []) with
          | Json.str s => env.jsonLoads s
          | _ => Except.error "TypeError: the JSON object must be str, bytes or bytearray"

/-- Lines 137–172 of `app.py` (`openai_generate`): POST a chat completion
with a single `generate_output` function; raise on 4xx/5xx; decode the
body; then
`response_data.get('choices', [{}])[0].get('message', {}).get('function_call', {}).get('arguments', "{}")`
and `json.loads` the resulting string.  A missing `choices` key defaults to
`[{}]`, so every inner lookup falls through its default down to the
arguments default `"{}"`; an empty `choices` list raises IndexError; a
non-dict link in the chain raises. -/
def openai_generate (env : Env) (model : Json) (prompt : String) (llm_format : Json) :
    Except String Json :=
  let r := env.openaiResp model prompt llm_format
  if raiseStatus r.status then Except.error (httpError r.status)
  else
    match env.jsonLoads r.text with
    | Except.error m => Except.error m
    | Except.ok rd =>
        if !rd.isObj then Except.error "AttributeError: object has no attribute get"
        else
          match jgetD rd "choices" (Json.arr [Json.obj []]) with
          | Json.arr [] => Except.error "IndexError: list index out of range"
          | Json.arr (c0 :: _) =>
              if !c0.isObj then Except.error "AttributeError: object has no attribute get"
              else
                let msg := jgetD c0 "message" (Json.obj [])
                if !msg.isObj then Except.error "AttributeError: object has no attribute get"
                else
                  let fc := jgetD msg "function_call" (Json.obj [])
                  if !fc.isObj then Except.error "AttributeError: object has no attribute get"
                  else
                    match jgetD fc "arguments" (Json.str "\x7b\x7d") with
                    | Json.str s => env.jsonLoads s
                    | _ => Except.error "TypeError: the JSON object must be str, bytes or bytearray"
          | _ => Except.error "TypeError: value is not indexable"

/-- The destination document built at lines 212–214 of `app.py`:
`new_doc = ctx` (an alias of the source), then
`new_doc['_llm_watcher']['processed'] = True` and
`new_doc['_llm_watcher']['output'] = response`. -/
def successDest (ctx lw response : Json) : Json :=
  jset ctx "_llm_watcher" (jset (jset lw "processed" (Json.bool true)) "output" response)

/-- Steps 1–4 of `process_document` (lines 191–214): extract the control
metadata with `.get` defaults, compile and render the prompt (jinja2
raises on a non-string template source), dispatch on
`_llm_watcher.provider` (`'openai'`, then `'ollama'`, else raise
`"Unknown llm provider: ..."`), and build the destination document.
Returns `(doc_id, original_index, new_doc)` or the exception message. -/
def attemptSteps (env : Env) (doc : Json) : Except String (Json × Json × Json) :=
  let ctx := jgetD doc "_source" (Json.obj [])
  let doc_id := jgetD doc "_id" Json.null
  if !ctx.isObj then Except.error "AttributeError: object has no attribute get"
  else
    let lw := jgetD ctx "_llm_watcher" (Json.obj [])
    if !lw.isObj then Except.error "AttributeError: object has no attribute get"
    else
      let original_index := jgetD lw "_original_index" Json.null
      let llm_format := jgetD lw "format" Json.null
      let provider := jgetD lw "provider" Json.null
      let model := jgetD lw "model" Json.null
      match jgetD lw "prompt" Json.null with
      | Json.str ptext =>
          match env.render ptext ctx with
          | Except.error m => Except.error m
          | Except.ok prompt_rendered =>
              let gen : Except String Json :=
                if provider = Json.str "openai" then
                  openai_generate env model prompt_rendered llm_format
                else if provider = Json.str "ollama" then
                  ollama_generate env model prompt_rendered llm_format
                else Except.error ("Unknown llm provider: " ++ pyStr provider)
              match gen with
              | Except.error m => Except.error m
              | Except.ok response =>
                  match jget ctx "_llm_watcher" with
                  | none => Except.error "KeyError: _llm_watcher"
                  | some lw2 =>
                      if !lw2.isObj then Except.error "TypeError: item assignment"
                      else Except.ok (doc_id, original_index, successDest ctx lw2 response)
      | _ => Except.error "TypeError: template source must be a string"

/-- The error annotation written by the `except` block (line 235):
the snapshot's `_source` with `_llm_watcher.error` set to the message. -/
def annotateError (src : Json) (m : String) : Json :=
  match jget src "_llm_watcher" with
  | some lw => jset src "_llm_watcher" (jset lw "error" (Json.str m))
  | none => src

/-- Lines 233–245 of `app.py`, the `except` block: on the deep-copied
snapshot `orig_doc` (= the document as fetched, since the success path
mutated only the live aliases), do
`orig_doc['_source']['_llm_watcher']['error'] = str(e)` — each
subscription can itself raise, escaping `process_document` — then write
`orig_doc['_source']` back to the watch index under `orig_doc['_id']`
(an unguarded write whose HTTPError also escapes), and return `False`. -/
def errorPath (A : Args) (env : Env) (doc : Json) (e : String) :
    List Effect × Except String Bool :=
  match getItem doc "_source" with
  | Except.error m => ([], Except.error m)
  | Except.ok src =>
      match getItem src "_llm_watcher" with
      | Except.error m => ([], Except.error m)
      | Except.ok lw =>
          if !lw.isObj then ([], Except.error "TypeError: item assignment")
          else
            let errSrc := jset src "_llm_watcher" (jset lw "error" (Json.str e))
            match getItem doc "_id" with
            | Except.error m => ([], Except.error m)
            | Except.ok did =>
                let s := env.upsertStatus A.watchIndex (pyStr did) errSrc
                ([Effect.upsert A.watchIndex (pyStr did) errSrc],
                 if raiseStatus s then Except.error (httpError s) else Except.ok false)

/-- Lines 174–246 of `app.py` (`process_document`): take the snapshot
(`copy.deepcopy`), run steps 1–4 (`attemptSteps`), write the destination
document to `original_index` under the same id (step 5), then delete the
source entry from the watch index (step 6); any exception in steps 1–5
diverts into the `except` block (`errorPath`).  The first component is the
trace of store requests issued, in order; the second is `ok true`
(success), `ok false` (Failure, error annotation written), or `error m`
(an exception escaped `process_document`). -/
def process_document (A : Args) (env : Env) (doc : Json) :
    List Effect × Except String Bool :=
  if !doc.isObj then ([], Except.error "AttributeError: object has no attribute get")
  else
    match attemptSteps env doc with
    | Except.error e => errorPath A env doc e
    | Except.ok (doc_id, original_index, newDoc) =>
        let wEff := Effect.upsert (pyStr original_index) (pyStr doc_id) newDoc
        let ws := env.upsertStatus (pyStr original_index) (pyStr doc_id) newDoc
        if raiseStatus ws then
          let t := errorPath A env doc (httpError ws)
          (wEff :: t.1, t.2)
        else
          let dEff := Effect.delete A.watchIndex (pyStr doc_id)
          let ds := env.deleteStatus A.watchIndex (pyStr doc_id)
          if raiseStatus ds then
            let t := errorPath A env doc (httpError ds)
            (wEff :: dEff :: t.1, t.2)
          else
            ([wEff, dEff], Except.ok true)

/-- First exception among the pool results (what `pool.starmap` re-raises
after all tasks have run). -/
def firstErr : List (Except String Bool) → Option String
  | [] => none
  | Except.error m :: _ => some m
  | Except.ok _ :: rest => firstErr rest

/-- Did this result come back as a Failure (`return False`)? -/
def isFailure : Except String Bool → Bool
  | Except.ok false => true
  | _ => false

/-- Lines 248–271 of `app.py` (`worker_loop`, one cycle): fetch a batch;
log `"Found N documents"`; `pool.starmap(process_document, ...)` runs every
document (all tasks complete, then the first worker exception re-raises in
the parent); count Failures; if the batch was non-empty, log the
`"Processed ... With ... errors"` summary.  A fetch error escapes before
anything else. -/
def worker_loop (A : Args) (env : Env) : List Event × Except String Unit :=
  let q := buildQuery A.batchSize A.retryErrors A.sortField
  match get_elasticsearch_docs env A with
  | Except.error m => ([Event.search q], Except.error m)
  | Except.ok docs =>
      let runs := docs.map (process_document A env)
      let effs := (runs.map (fun r => r.1)).flatten.map Event.eff
      let pre := Event.search q :: Event.found docs.length :: effs
      match firstErr (runs.map (fun r => r.2)) with
      | some m => (pre, Except.error m)
      | none =>
          let errors := (runs.map (fun r => r.2)).countP isFailure
          if docs.length ≠ 0 then
            (pre ++ [Event.summary (docs.length - errors) docs.length errors], Except.ok ())
          else (pre, Except.ok ())

/-- Decidable equality for `Except` results (used by concrete checks). -/
instance {ε α : Type} [DecidableEq ε] [DecidableEq α] : DecidableEq (Except ε α)
  | Except.ok a, Except.ok b => decidable_of_iff (a = b) (by simp)
  | Except.ok _, Except.error _ => Decidable.isFalse (fun h => Except.noConfusion h)
  | Except.error _, Except.ok _ => Decidable.isFalse (fun h => Except.noConfusion h)
  | Except.error a, Except.error b => decidable_of_iff (a = b) (by simp)

/-! ### Concrete fixtures

A scenario-1 style WorkItem (`doc1`), an OpenAI twin (`docO`), a
malformed item (`badDoc`), an error-annotated item (`errDoc`), and sample
environments.  `baseLoads` is a concrete stand-in for `json.loads` on the
handful of body texts the sample backends return. -/

def lw1 : Json := Json.obj [("_original_index", Json.str "out"),
  ("provider", Json.str "ollama"), ("model", Json.str "m"),
  ("prompt", Json.str "p"), ("format", Json.obj [])]

def ctx1 : Json := Json.obj [("text", Json.str "hi"), ("_llm_watcher", lw1)]

def doc1 : Json := Json.obj [("_id", Json.str "1"), ("_source", ctx1)]

def resp1 : Json := Json.obj [("reply", Json.str "hello")]

/-- The destination document the code actually produces for `doc1`. -/
def dest1 : Json := Json.obj [("text", Json.str "hi"),
  ("_llm_watcher", Json.obj [("_original_index", Json.str "out"),
    ("provider", Json.str "ollama"), ("model", Json.str "m"),
    ("prompt", Json.str "p"), ("format", Json.obj []),
    ("processed", Json.bool true), ("output", resp1)])]

def lwO : Json := Json.obj [("_original_index", Json.str "out"),
  ("provider", Json.str "openai"), ("model", Json.str "m"),
  ("prompt", Json.str "p"), ("format", Json.obj [])]

def ctxO : Json := Json.obj [("text", Json.str "hi"), ("_llm_watcher", lwO)]

def docO : Json := Json.obj [("_id", Json.str "2"), ("_source", ctxO)]

def badDoc : Json := Json.obj [("_id", Json.str "9"),
  ("_source", Json.obj [("_llm_watcher", Json.obj [("provider", Json.str "x")])])]

def errDoc : Json := Json.obj [("_id", Json.str "1"),
  ("_source", Json.obj [("text", Json.str "hi"),
    ("_llm_watcher", Json.obj [("error", Json.str "boom")])])]

def baseLoads : String → Except String Json := fun s =>
  if s = "OLLAMA_OK" then Except.ok (Json.obj [("response", Json.str "INNER_OK")])
  else if s = "INNER_OK" then Except.ok resp1
  else if s = "OLLAMA_BAD" then Except.ok (Json.obj [("response", Json.str "INNER_BAD")])
  else if s = "\x7b\x7d" then Except.ok (Json.obj [])
  else if s = "SEARCH_ONE" then Except.ok (Json.obj [("hits", Json.obj [("hits", Json.arr [badDoc])])])
  else if s = "OAI_OK" then Except.ok (Json.obj [("choices",
    Json.arr [Json.obj [("message", Json.obj [("role", Json.str "assistant")])]])])
  else Except.error "Expecting value: line 1 column 1 (char 0)"

def mkEnv (ollamaText oaiText searchText : String) (searchSt upsertSt deleteSt : Nat) : Env :=
  { render := fun t _ => Except.ok t
    jsonLoads := baseLoads
    ollamaResp := fun _ _ _ => ⟨200, ollamaText⟩
    openaiResp := fun _ _ _ => ⟨200, oaiText⟩
    searchResp := fun _ => ⟨searchSt, searchText⟩
    upsertStatus := fun _ _ _ => upsertSt
    deleteStatus := fun _ _ => deleteSt }

/-- Backends and store all healthy. -/
def envOk := mkEnv "OLLAMA_OK" "OAI_OK" "SEARCH_ONE" 200 201 200

/-- Ollama's `response` field is not decodable JSON. -/
def envBad := mkEnv "OLLAMA_BAD" "OAI_OK" "SEARCH_ONE" 200 201 200

/-- Every document upsert (including the error write-back) fails with 500. -/
def envFail := mkEnv "OLLAMA_OK" "OAI_OK" "SEARCH_ONE" 200 500 200

/-- The watch index does not exist: search answers 404. -/
def env404 := mkEnv "OLLAMA_OK" "OAI_OK" "X" 404 201 200

/-- The store answers 500 to the search. -/
def env500 := mkEnv "OLLAMA_OK" "OAI_OK" "X" 500 201 200

def A1 : Args := ⟨"watch", 10, false, none⟩


def lwU : Json := Json.obj [("_original_index", Json.str "out"),
  ("provider", Json.str "foo"), ("model", Json.str "m"),
  ("prompt", Json.str "p"), ("format", Json.obj [])]

def ctxU : Json := Json.obj [("text", Json.str "hi"), ("_llm_watcher", lwU)]

def docU : Json := Json.obj [("_id", Json.str "3"), ("_source", ctxU)]

/-! ### Helper lemmas about the embedding -/

theorem lookupField_setField_same (fs : List (String × Json)) (k : String) (v : Json) :
    lookupField (setField fs k v) k = some v := by
  induction fs with
  | nil => simp [setField, lookupField]
  | cons hd tl ih =>
      obtain ⟨k2, w⟩ := hd
      by_cases h : k2 = k <;> simp [setField, lookupField, h, ih]

theorem lookupField_setField_other (fs : List (String × Json)) (k k2 : String) (v : Json)
    (h : k2 ≠ k) : lookupField (setField fs k v) k2 = lookupField fs k2 := by
  induction fs with
  | nil => simp [setField, lookupField, Ne.symm h]
  | cons hd tl ih =>
      obtain ⟨k3, w⟩ := hd
      by_cases h3 : k3 = k
      · subst h3
        simp [setField, lookupField, Ne.symm h]
      · simp [setField, lookupField, h3, ih]

theorem jget_jset_same (j : Json) (k : String) (v : Json) (h : j.isObj = true) :
    jget (jset j k v) k = some v := by
  cases j <;> simp_all [Json.isObj, jset, jget, lookupField_setField_same]

theorem jget_jset_other (j : Json) (k k2 : String) (v : Json) (h : k2 ≠ k) :
    jget (jset j k v) k2 = jget j k2 := by
  cases j <;> simp_all [jset, jget, lookupField_setField_other _ _ _ _ h]

theorem getItem_ok_jget {j : Json} {k : String} {v : Json}
    (h : getItem j k = Except.ok v) : jget j k = some v := by
  cases j <;> simp_all [getItem, jget]
  cases hl : lookupField ‹List (String × Json)› k <;> simp_all [getItem]

theorem getItem_ok_isObj {j : Json} {k : String} {v : Json}
    (h : getItem j k = Except.ok v) : j.isObj = true := by
  cases j <;> simp_all [getItem, Json.isObj]

theorem jget_jgetD {j : Json} {k : String} {v d : Json}
    (h : jget j k = some v) : jgetD j k d = v := by
  simp [jgetD, h]

/-! ### Claims -/

/-- C2: the claim (and the spec, and the source's own `--retry-errors` help
text "Retry documents which had errors before") says that with the
retry-errors flag DISABLED the fetch applies the must-not-have-error filter
and returns zero items over an error-only index, and with the flag ENABLED
the errored items are fetched again.  The code at lines 46–47 does the
opposite: `if retry_errors: query['query'] = non_error` installs the
must-not-have-error filter exactly when the flag is set.  Evaluated on a
one-element error-only index: retry disabled fetches the errored item,
retry enabled fetches nothing. -/
theorem c2_retry_filter_inverted :
    (buildQuery 10 false none).filter = EsFilter.matchAll ∧
    fetchSem [errDoc] (buildQuery 10 false none) = [errDoc] ∧
    (buildQuery 10 true none).filter = EsFilter.mustNotHaveErrorField ∧
    fetchSem [errDoc] (buildQuery 10 true none) = [] := by
  refine ⟨rfl, by decide, rfl, by decide⟩

/-- C1 is false on the code: at the scenario-1 WorkItem `doc1` (provider
ollama, backend payload `{"reply": "hello"}`), `process_document` succeeds
but the destination document it writes is `dest1`, which still contains the
control-metadata key `_llm_watcher` (with `processed`/`output` added
inside it), has no top-level `reply` field, and is not the claimed shallow
merge `{text: "hi", reply: "hello"}`. -/
theorem c1_counterexample :
    (process_document A1 envOk doc1).1
        = [Effect.upsert "out" "1" dest1, Effect.delete "watch" "1"] ∧
    (jget dest1 "_llm_watcher").isSome = true ∧
    jget dest1 "reply" = none ∧
    dest1 ≠ Json.obj [("text", Json.str "hi"), ("reply", Json.str "hello")] := by
  refine ⟨by decide, by decide, by decide, by decide⟩

theorem attemptSteps_ollama (env : Env) (doc ctx lw resp : Json) (p rp : String)
    (hctx : jgetD doc "_source" (Json.obj []) = ctx)
    (hco : ctx.isObj = true)
    (hlw : jget ctx "_llm_watcher" = some lw)
    (hlwo : lw.isObj = true)
    (hp : jgetD lw "prompt" Json.null = Json.str p)
    (hprov : jgetD lw "provider" Json.null = Json.str "ollama")
    (hr : env.render p ctx = Except.ok rp)
    (hgen : ollama_generate env (jgetD lw "model" Json.null) rp (jgetD lw "format" Json.null)
              = Except.ok resp) :
    attemptSteps env doc =
      Except.ok (jgetD doc "_id" Json.null, jgetD lw "_original_index" Json.null,
        successDest ctx lw resp) := by
  simp [attemptSteps, hctx, hco, jget_jgetD hlw, hlwo, hp, hprov, hr, hgen, hlw]

theorem attemptSteps_openai (env : Env) (doc ctx lw resp : Json) (p rp : String)
    (hctx : jgetD doc "_source" (Json.obj []) = ctx)
    (hco : ctx.isObj = true)
    (hlw : jget ctx "_llm_watcher" = some lw)
    (hlwo : lw.isObj = true)
    (hp : jgetD lw "prompt" Json.null = Json.str p)
    (hprov : jgetD lw "provider" Json.null = Json.str "openai")
    (hr : env.render p ctx = Except.ok rp)
    (hgen : openai_generate env (jgetD lw "model" Json.null) rp (jgetD lw "format" Json.null)
              = Except.ok resp) :
    attemptSteps env doc =
      Except.ok (jgetD doc "_id" Json.null, jgetD lw "_original_index" Json.null,
        successDest ctx lw resp) := by
  simp [attemptSteps, hctx, hco, jget_jgetD hlw, hlwo, hp, hprov, hr, hgen, hlw]

theorem process_document_ok (A : Args) (env : Env) (doc did oi nd : Json)
    (hdoc : doc.isObj = true)
    (hstep : attemptSteps env doc = Except.ok (did, oi, nd))
    (hw : raiseStatus (env.upsertStatus (pyStr oi) (pyStr did) nd) = false)
    (hd : raiseStatus (env.deleteStatus A.watchIndex (pyStr did)) = false) :
    process_document A env doc =
      ([Effect.upsert (pyStr oi) (pyStr did) nd, Effect.delete A.watchIndex (pyStr did)],
       Except.ok true) := by
  simp [process_document, hdoc, hstep, hw, hd]

/-- C1 (amended): for every WorkItem with valid control metadata
(source and control block are dicts, prompt is a string, provider is
`"ollama"` or `"openai"`), a successful render, whichever provider the
item names returning a JSON-decodable payload `resp`, and a store
accepting the two requests, `process` yields Success: it writes exactly
one destination document to the index named by
`_llm_watcher._original_index` under the same id and then deletes the
watch-index entry.  The destination document is NOT the shallow merge of
the claim: it keeps every original top-level source field unchanged and
retains the control-metadata key `_llm_watcher`, augmented with
`processed = true` and `output = resp`. -/
theorem c1_amended (A : Args) (env : Env) (doc ctx lw resp : Json) (p rp : String)
    (hdoc : doc.isObj = true)
    (hctx : jgetD doc "_source" (Json.obj []) = ctx)
    (hco : ctx.isObj = true)
    (hlw : jget ctx "_llm_watcher" = some lw)
    (hlwo : lw.isObj = true)
    (hp : jgetD lw "prompt" Json.null = Json.str p)
    (hr : env.render p ctx = Except.ok rp)
    (hgen : (jgetD lw "provider" Json.null = Json.str "ollama" ∧
               ollama_generate env (jgetD lw "model" Json.null) rp (jgetD lw "format" Json.null)
                 = Except.ok resp) ∨
            (jgetD lw "provider" Json.null = Json.str "openai" ∧
               openai_generate env (jgetD lw "model" Json.null) rp (jgetD lw "format" Json.null)
                 = Except.ok resp))
    (hw : raiseStatus (env.upsertStatus (pyStr (jgetD lw "_original_index" Json.null))
            (pyStr (jgetD doc "_id" Json.null)) (successDest ctx lw resp)) = false)
    (hd : raiseStatus (env.deleteStatus A.watchIndex (pyStr (jgetD doc "_id" Json.null))) = false) :
    process_document A env doc =
      ([Effect.upsert (pyStr (jgetD lw "_original_index" Json.null))
          (pyStr (jgetD doc "_id" Json.null)) (successDest ctx lw resp),
        Effect.delete A.watchIndex (pyStr (jgetD doc "_id" Json.null))], Except.ok true) ∧
    (jget (successDest ctx lw resp) "_llm_watcher").isSome = true ∧
    (∀ k, k ≠ "_llm_watcher" → jget (successDest ctx lw resp) k = jget ctx k) := by
  have hstep : attemptSteps env doc =
      Except.ok (jgetD doc "_id" Json.null, jgetD lw "_original_index" Json.null,
        successDest ctx lw resp) := by
    rcases hgen with ⟨hprov, hg⟩ | ⟨hprov, hg⟩
    · exact attemptSteps_ollama env doc ctx lw resp p rp hctx hco hlw hlwo hp hprov hr hg
    · exact attemptSteps_openai env doc ctx lw resp p rp hctx hco hlw hlwo hp hprov hr hg
  refine ⟨process_document_ok A env doc _ _ _ hdoc hstep hw hd, ?_, ?_⟩
  · simp [successDest, jget_jset_same _ _ _ hco]
  · intro k hk
    simp [successDest, jget_jset_other _ _ _ _ hk]

/-- Witness for C1 (amended), applied at both recognized providers: the
concrete scenario-1 item `doc1` (ollama, payload `resp1`) and its OpenAI
twin `docO` (openai, payload the empty mapping), both under the healthy
environment `envOk`. -/
theorem c1_amended_witness :
    (process_document A1 envOk doc1 =
      ([Effect.upsert (pyStr (jgetD lw1 "_original_index" Json.null))
          (pyStr (jgetD doc1 "_id" Json.null)) (successDest ctx1 lw1 resp1),
        Effect.delete A1.watchIndex (pyStr (jgetD doc1 "_id" Json.null))], Except.ok true) ∧
     (jget (successDest ctx1 lw1 resp1) "_llm_watcher").isSome = true) ∧
    (process_document A1 envOk docO =
      ([Effect.upsert (pyStr (jgetD lwO "_original_index" Json.null))
          (pyStr (jgetD docO "_id" Json.null)) (successDest ctxO lwO (Json.obj [])),
        Effect.delete A1.watchIndex (pyStr (jgetD docO "_id" Json.null))], Except.ok true) ∧
     (jget (successDest ctxO lwO (Json.obj [])) "_llm_watcher").isSome = true) :=
  ⟨⟨(c1_amended A1 envOk doc1 ctx1 lw1 resp1 "p" "p" rfl rfl rfl rfl rfl rfl rfl
       (Or.inl ⟨rfl, rfl⟩) rfl rfl).1,
    (c1_amended A1 envOk doc1 ctx1 lw1 resp1 "p" "p" rfl rfl rfl rfl rfl rfl rfl
       (Or.inl ⟨rfl, rfl⟩) rfl rfl).2.1⟩,
   ⟨(c1_amended A1 envOk docO ctxO lwO (Json.obj []) "p" "p" rfl rfl rfl rfl rfl rfl rfl
       (Or.inr ⟨rfl, rfl⟩) rfl rfl).1,
    (c1_amended A1 envOk docO ctxO lwO (Json.obj []) "p" "p" rfl rfl rfl rfl rfl rfl rfl
       (Or.inr ⟨rfl, rfl⟩) rfl rfl).2.1⟩⟩

theorem errorPath_no_delete (A : Args) (env : Env) (doc : Json) (e : String)
    (i d : String) : Effect.delete i d ∉ (errorPath A env doc e).1 := by
  unfold errorPath
  repeat' split
  all_goals simp

/-- C3: for every WorkItem, a delete issued by `process_document` always
targets the watch index and is issued only immediately after the
destination write request, and only when that write came back with a
non-raising status.  Hence any exception in steps 1–5 (control
extraction, prompt rendering, provider dispatch, merge, destination
write) means the source watch-index entry is never deleted. -/
theorem c3_delete_only_after_write (A : Args) (env : Env) (doc : Json) (i d : String)
    (tr : List Effect) (res : Except String Bool)
    (hrun : process_document A env doc = (tr, res))
    (hmem : Effect.delete i d ∈ tr) :
    i = A.watchIndex ∧
    ∃ oi nd rest,
      tr = Effect.upsert oi d nd :: Effect.delete A.watchIndex d :: rest ∧
      raiseStatus (env.upsertStatus oi d nd) = false := by
  simp only [process_document] at hrun
  split at hrun
  · injection hrun with h1 h2
    subst h1
    simp at hmem
  · split at hrun
    next e heq =>
      have h1 : (errorPath A env doc e).1 = tr := congrArg Prod.fst hrun
      rw [← h1] at hmem
      exact absurd hmem (errorPath_no_delete A env doc e i d)
    next did oi nd heq =>
      split at hrun
      next hws =>
        injection hrun with h1 h2
        subst h1
        rcases List.mem_cons.mp hmem with h | h
        · exact absurd h (by simp)
        · exact absurd h (errorPath_no_delete A env doc _ i d)
      next hws =>
        split at hrun
        next hds =>
          injection hrun with h1 h2
          subst h1
          rcases List.mem_cons.mp hmem with h | h
          · exact absurd h (by simp)
          · rcases List.mem_cons.mp h with h2 | h2
            · injection h2 with hi hd2
              subst hi; subst hd2
              exact ⟨rfl, pyStr oi, nd, (errorPath A env doc (httpError (env.deleteStatus A.watchIndex (pyStr did)))).1,
                rfl, by simpa using hws⟩
            · exact absurd h2 (errorPath_no_delete A env doc _ i d)
        next hds =>
          injection hrun with h1 h2
          subst h1
          rcases List.mem_cons.mp hmem with h | h
          · exact absurd h (by simp)
          · rcases List.mem_cons.mp h with h2 | h2
            · injection h2 with hi hd2
              subst hi; subst hd2
              exact ⟨rfl, pyStr oi, nd, [], rfl, by simpa using hws⟩
            · simp at h2

/-- Witness for C3 at the concrete successful run of `doc1` under
`envOk`, whose trace does contain a delete. -/
theorem c3_witness :
    "watch" = A1.watchIndex ∧
    ∃ oi nd rest,
      [Effect.upsert "out" "1" dest1, Effect.delete "watch" "1"]
        = Effect.upsert oi "1" nd :: Effect.delete A1.watchIndex "1" :: rest ∧
      raiseStatus (envOk.upsertStatus oi "1" nd) = false :=
  c3_delete_only_after_write A1 envOk doc1 "watch" "1"
    [Effect.upsert "out" "1" dest1, Effect.delete "watch" "1"] (Except.ok true)
    (by decide) (by decide)

theorem errorPath_ok (A : Args) (env : Env) (doc src lw did : Json) (e : String)
    (hsrc : getItem doc "_source" = Except.ok src)
    (hlw : getItem src "_llm_watcher" = Except.ok lw)
    (hlwo : lw.isObj = true)
    (hid : getItem doc "_id" = Except.ok did)
    (hok : raiseStatus (env.upsertStatus A.watchIndex (pyStr did)
             (jset src "_llm_watcher" (jset lw "error" (Json.str e)))) = false) :
    errorPath A env doc e =
      ([Effect.upsert A.watchIndex (pyStr did)
          (jset src "_llm_watcher" (jset lw "error" (Json.str e)))], Except.ok false) := by
  simp [errorPath, hsrc, hlw, hlwo, hid, hok]

/-- C4 is false on the code: under `envFail` (all upserts answer 500)
the fetch itself succeeds with the single document `badDoc`, that
document's processing fails, the write of its error annotation back to
the watch index also fails, and the resulting HTTPError escapes
`process_document`; `pool.starmap` re-raises it, so the worker-loop cycle
ends in an exception that is not a fetch error (the error-annotation
write failure is NOT isolated to the item). -/
theorem c4_counterexample :
    get_elasticsearch_docs envFail A1 = Except.ok [badDoc] ∧
    (worker_loop A1 envFail).2 = Except.error (httpError 500) := by
  refine ⟨by decide, by decide⟩

/-- C4 (amended): no exception from a single document's processing
escapes into the worker loop PROVIDED the document's snapshot has
`_source._llm_watcher` as a mapping, carries an `_id`, and the
error-annotation write to the watch index succeeds; under those
conditions `process_document` always returns an outcome (`True` or
`False`) rather than raising.  Without them — in particular when the
reconciliation write itself fails — the exception escapes, as the
counterexample shows. -/
theorem c4_amended (A : Args) (env : Env) (doc src lw did : Json)
    (hdoc : doc.isObj = true)
    (hsrc : getItem doc "_source" = Except.ok src)
    (hlw : getItem src "_llm_watcher" = Except.ok lw)
    (hlwo : lw.isObj = true)
    (hid : getItem doc "_id" = Except.ok did)
    (hok : ∀ body, raiseStatus (env.upsertStatus A.watchIndex (pyStr did) body) = false) :
    (process_document A env doc).2 = Except.ok true ∨
    (process_document A env doc).2 = Except.ok false := by
  have hep : ∀ e, (errorPath A env doc e).2 = Except.ok false := by
    intro e
    rw [errorPath_ok A env doc src lw did e hsrc hlw hlwo hid (hok _)]
  cases hstep : attemptSteps env doc with
  | error e =>
      right
      simp [process_document, hdoc, hstep, hep e]
  | ok trip =>
      obtain ⟨did2, oi, nd⟩ := trip
      by_cases hws : raiseStatus (env.upsertStatus (pyStr oi) (pyStr did2) nd) = true
      · right
        simp [process_document, hdoc, hstep, hws, hep]
      · rw [Bool.not_eq_true] at hws
        by_cases hds : raiseStatus (env.deleteStatus A.watchIndex (pyStr did2)) = true
        · right
          simp [process_document, hdoc, hstep, hws, hds, hep]
        · rw [Bool.not_eq_true] at hds
          left
          simp [process_document, hdoc, hstep, hws, hds]

/-- Witness for C4 (amended) at `doc1` under `envOk`. -/
theorem c4_amended_witness :
    (process_document A1 envOk doc1).2 = Except.ok true ∨
    (process_document A1 envOk doc1).2 = Except.ok false :=
  c4_amended A1 envOk doc1 ctx1 lw1 (Json.str "1") rfl rfl rfl rfl rfl (fun _ => rfl)

theorem errorPath_failure_shape (A : Args) (env : Env) (doc : Json) (e : String)
    (h : (errorPath A env doc e).2 = Except.ok false) :
    ∃ src lw did,
      getItem doc "_source" = Except.ok src ∧
      getItem src "_llm_watcher" = Except.ok lw ∧
      lw.isObj = true ∧
      getItem doc "_id" = Except.ok did ∧
      (errorPath A env doc e).1
        = [Effect.upsert A.watchIndex (pyStr did) (annotateError src e)] := by
  unfold errorPath at *
  split at h
  · simp at h
  next src hsrc =>
    split at h
    · simp at h
    next lw hlw =>
      split at h
      · simp at h
      next hlwo =>
        split at h
        · simp at h
        next did hid =>
          refine ⟨src, lw, did, hsrc, hlw, by simpa using hlwo, hid, ?_⟩
          simp [annotateError, getItem_ok_jget hlw, hlwo]

theorem errorPath_ne_ok_true (A : Args) (env : Env) (doc : Json) (e : String) :
    (errorPath A env doc e).2 ≠ Except.ok true := by
  unfold errorPath
  repeat' split
  all_goals simp
  split <;> simp

theorem process_failure_shape (A : Args) (env : Env) (doc : Json)
    (hfail : (process_document A env doc).2 = Except.ok false) :
    ∃ e rest, (process_document A env doc).1 = rest ++ (errorPath A env doc e).1 ∧
      (errorPath A env doc e).2 = Except.ok false := by
  rcases hrun : process_document A env doc with ⟨tr, res⟩
  rw [hrun] at hfail
  simp only at hfail
  subst hfail
  simp only [process_document] at hrun
  split at hrun
  · injection hrun with h1 h2
    simp at h2
  · split at hrun
    next e heq =>
      have hT : (errorPath A env doc e).1 = tr := congrArg Prod.fst hrun
      have hR : (errorPath A env doc e).2 = Except.ok false := congrArg Prod.snd hrun
      exact ⟨e, [], by rw [hT]; simp, hR⟩
    next did oi nd heq =>
      split at hrun
      next hws =>
        injection hrun with h1 h2
        exact ⟨httpError (env.upsertStatus (pyStr oi) (pyStr did) nd),
          [Effect.upsert (pyStr oi) (pyStr did) nd], by rw [← h1]; simp, h2⟩
      next hws =>
        split at hrun
        next hds =>
          injection hrun with h1 h2
          exact ⟨httpError (env.deleteStatus A.watchIndex (pyStr did)),
            [Effect.upsert (pyStr oi) (pyStr did) nd, Effect.delete A.watchIndex (pyStr did)],
            by rw [← h1]; simp, h2⟩
        next hds =>
          injection hrun with h1 h2
          simp at h2

/-- C5: for every WorkItem whose processing fails with a Failure
outcome, the last store request of the run is an upsert to the watch
index, under the document's own `_id`, of the deep-copy snapshot of the
item's `_source` taken before processing began with `_llm_watcher.error`
set to the failure's message: every top-level field other than
`_llm_watcher` and every control field other than `error` equals the
snapshot's, so in-memory mutations made during the failed attempt
(`processed`/`output`) do not appear in the error record. -/
theorem c5_error_record_is_snapshot (A : Args) (env : Env) (doc : Json)
    (hfail : (process_document A env doc).2 = Except.ok false) :
    ∃ src lw did rest m,
      getItem doc "_source" = Except.ok src ∧
      getItem src "_llm_watcher" = Except.ok lw ∧
      getItem doc "_id" = Except.ok did ∧
      (process_document A env doc).1
        = rest ++ [Effect.upsert A.watchIndex (pyStr did) (annotateError src m)] ∧
      jget (annotateError src m) "_llm_watcher" = some (jset lw "error" (Json.str m)) ∧
      jget (jset lw "error" (Json.str m)) "error" = some (Json.str m) ∧
      (∀ k, k ≠ "_llm_watcher" → jget (annotateError src m) k = jget src k) ∧
      (∀ k, k ≠ "error" → jget (jset lw "error" (Json.str m)) k = jget lw k) := by
  obtain ⟨e, rest, htr, hep⟩ := process_failure_shape A env doc hfail
  obtain ⟨src, lw, did, hsrc, hlw, hlwo, hid, hep1⟩ := errorPath_failure_shape A env doc e hep
  refine ⟨src, lw, did, rest, e, hsrc, hlw, hid, by rw [htr, hep1], ?_, ?_, ?_, ?_⟩
  · simp only [annotateError, getItem_ok_jget hlw]
    exact jget_jset_same src "_llm_watcher" _ (getItem_ok_isObj hlw)
  · exact jget_jset_same lw "error" _ hlwo
  · intro k hk
    simp only [annotateError, getItem_ok_jget hlw]
    exact jget_jset_other src "_llm_watcher" k _ hk
  · intro k hk
    exact jget_jset_other lw "error" k _ hk

/-- Witness for C5 at `doc1` under `envBad`, where the Ollama payload
fails to decode so processing fails after the snapshot was taken. -/
theorem c5_witness :
    ∃ src lw did rest m,
      getItem doc1 "_source" = Except.ok src ∧
      getItem src "_llm_watcher" = Except.ok lw ∧
      getItem doc1 "_id" = Except.ok did ∧
      (process_document A1 envBad doc1).1
        = rest ++ [Effect.upsert A1.watchIndex (pyStr did) (annotateError src m)] ∧
      jget (annotateError src m) "_llm_watcher" = some (jset lw "error" (Json.str m)) ∧
      jget (jset lw "error" (Json.str m)) "error" = some (Json.str m) ∧
      (∀ k, k ≠ "_llm_watcher" → jget (annotateError src m) k = jget src k) ∧
      (∀ k, k ≠ "error" → jget (jset lw "error" (Json.str m)) k = jget lw k) :=
  c5_error_record_is_snapshot A1 envBad doc1 (by decide)

theorem attemptSteps_unknown_provider (env : Env) (doc src lw : Json)
    (hsrc : getItem doc "_source" = Except.ok src)
    (hlw : getItem src "_llm_watcher" = Except.ok lw)
    (hp1 : jgetD lw "provider" Json.null ≠ Json.str "openai")
    (hp2 : jgetD lw "provider" Json.null ≠ Json.str "ollama") :
    ∃ e, attemptSteps env doc = Except.error e := by
  by_cases hlo : lw.isObj = true
  · have htmpl : ∀ hpv2 : Json, jgetD lw "prompt" Json.null = hpv2 →
        (∀ s2 : String, hpv2 ≠ Json.str s2) → ∃ e, attemptSteps env doc = Except.error e := by
      intro hpv2 hpv hns
      exact ⟨"TypeError: template source must be a string",
        by rcases hpv2 with _ | b | n | s2 | xs | fs <;>
          first
          | exact absurd rfl (hns _)
          | simp [attemptSteps, jget_jgetD (getItem_ok_jget hsrc),
              jget_jgetD (getItem_ok_jget hlw), getItem_ok_isObj hlw, hlo, hpv]⟩
    rcases hpv : jgetD lw "prompt" Json.null with _ | b | n | s | xs | fs
    · exact htmpl _ hpv (by intro s2; simp)
    · exact htmpl _ hpv (by intro s2; simp)
    · exact htmpl _ hpv (by intro s2; simp)
    · rcases hr : env.render s src with m | rp
      · exact ⟨m, by simp [attemptSteps, jget_jgetD (getItem_ok_jget hsrc),
          jget_jgetD (getItem_ok_jget hlw), getItem_ok_isObj hlw, hlo, hpv, hr]⟩
      · refine ⟨"Unknown llm provider: " ++ pyStr (jgetD lw "provider" Json.null), ?_⟩
        simp [attemptSteps, jget_jgetD (getItem_ok_jget hsrc),
          jget_jgetD (getItem_ok_jget hlw), getItem_ok_isObj hlw, hlo, hpv, hr, hp1, hp2]
    · exact htmpl _ hpv (by intro s2; simp)
    · exact htmpl _ hpv (by intro s2; simp)
  · exact ⟨"AttributeError: object has no attribute get",
      by simp [attemptSteps, jget_jgetD (getItem_ok_jget hsrc),
        jget_jgetD (getItem_ok_jget hlw), getItem_ok_isObj hlw, hlo]⟩

/-- C6: for every WorkItem whose `_llm_watcher.provider` is neither
`"ollama"` nor `"openai"`, `process` yields the Failure outcome (given a
well-formed snapshot and a store that accepts the error write-back), and
the source watch-index entry is never deleted: no delete request appears
in the trace. -/
theorem c6_unknown_provider (A : Args) (env : Env) (doc src lw did : Json)
    (hdoc : doc.isObj = true)
    (hsrc : getItem doc "_source" = Except.ok src)
    (hlw : getItem src "_llm_watcher" = Except.ok lw)
    (hlwo : lw.isObj = true)
    (hid : getItem doc "_id" = Except.ok did)
    (hp1 : jgetD lw "provider" Json.null ≠ Json.str "openai")
    (hp2 : jgetD lw "provider" Json.null ≠ Json.str "ollama")
    (hok : ∀ body, raiseStatus (env.upsertStatus A.watchIndex (pyStr did) body) = false) :
    (process_document A env doc).2 = Except.ok false ∧
    ∀ i d, Effect.delete i d ∉ (process_document A env doc).1 := by
  obtain ⟨e, hstep⟩ := attemptSteps_unknown_provider env doc src lw hsrc hlw hp1 hp2
  have hep := errorPath_ok A env doc src lw did e hsrc hlw hlwo hid (hok _)
  constructor
  · simp [process_document, hdoc, hstep, hep]
  · intro i d
    simp only [process_document, hdoc, hstep, Bool.not_true, Bool.false_eq_true, if_false]
    exact errorPath_no_delete A env doc e i d

/-- Witness for C6 at `docU`, whose provider is the unrecognized
string `"foo"`. -/
theorem c6_witness :
    (process_document A1 envOk docU).2 = Except.ok false ∧
    ∀ i d, Effect.delete i d ∉ (process_document A1 envOk docU).1 :=
  c6_unknown_provider A1 envOk docU ctxU lwU (Json.str "3")
    rfl rfl rfl rfl rfl (by decide) (by decide) (fun _ => rfl)

theorem ollama_generate_decode_failure (env : Env) (model : Json) (rp : String) (fmt : Json)
    (E : Json) (s m : String)
    (hst : raiseStatus (env.ollamaResp model rp fmt).status = false)
    (henv : env.jsonLoads (env.ollamaResp model rp fmt).text = Except.ok E)
    (hEo : E.isObj = true)
    (hresp : jgetD E "response" (Json.obj []) = Json.str s)
    (hparse : env.jsonLoads s = Except.error m) :
    ollama_generate env model rp fmt = Except.error m := by
  simp [ollama_generate, hst, henv, hEo, hresp, hparse]

theorem attemptSteps_ollama_error (env : Env) (doc ctx lw : Json) (p rp m : String)
    (hctx : jgetD doc "_source" (Json.obj []) = ctx)
    (hco : ctx.isObj = true)
    (hlw : jget ctx "_llm_watcher" = some lw)
    (hlwo : lw.isObj = true)
    (hp : jgetD lw "prompt" Json.null = Json.str p)
    (hprov : jgetD lw "provider" Json.null = Json.str "ollama")
    (hr : env.render p ctx = Except.ok rp)
    (hgen : ollama_generate env (jgetD lw "model" Json.null) rp (jgetD lw "format" Json.null)
              = Except.error m) :
    attemptSteps env doc = Except.error m := by
  simp [attemptSteps, hctx, hco, jget_jgetD hlw, hlwo, hp, hprov, hr, hgen, hlw]

/-- C7: for every WorkItem routed to the Ollama provider whose backend
response envelope decodes but whose textual `response` content fails JSON
decoding with message `m`, the decode failure is a generation error: the
entire request trace is a single upsert to the watch index rewriting the
entry with `_llm_watcher.error` set to the non-empty string `m` — the
destination index receives no write and the entry is not deleted. -/
theorem c7_ollama_decode_failure (A : Args) (env : Env) (doc src lw did : Json)
    (p rp : String) (E : Json) (s m : String)
    (hdoc : doc.isObj = true)
    (hsrc : getItem doc "_source" = Except.ok src)
    (hlw : getItem src "_llm_watcher" = Except.ok lw)
    (hlwo : lw.isObj = true)
    (hid : getItem doc "_id" = Except.ok did)
    (hp : jgetD lw "prompt" Json.null = Json.str p)
    (hprov : jgetD lw "provider" Json.null = Json.str "ollama")
    (hr : env.render p src = Except.ok rp)
    (hst : raiseStatus (env.ollamaResp (jgetD lw "model" Json.null) rp
             (jgetD lw "format" Json.null)).status = false)
    (henv : env.jsonLoads (env.ollamaResp (jgetD lw "model" Json.null) rp
             (jgetD lw "format" Json.null)).text = Except.ok E)
    (hEo : E.isObj = true)
    (hresp : jgetD E "response" (Json.obj []) = Json.str s)
    (hparse : env.jsonLoads s = Except.error m)
    (hm : m ≠ "")
    (hok : raiseStatus (env.upsertStatus A.watchIndex (pyStr did)
             (jset src "_llm_watcher" (jset lw "error" (Json.str m)))) = false) :
    process_document A env doc =
      ([Effect.upsert A.watchIndex (pyStr did)
          (jset src "_llm_watcher" (jset lw "error" (Json.str m)))], Except.ok false) ∧
    jget (jset lw "error" (Json.str m)) "error" = some (Json.str m) ∧
    m ≠ "" := by
  have hgen := ollama_generate_decode_failure env (jgetD lw "model" Json.null) rp
    (jgetD lw "format" Json.null) E s m hst henv hEo hresp hparse
  have hstep := attemptSteps_ollama_error env doc src lw p rp m
    (jget_jgetD (getItem_ok_jget hsrc)) (getItem_ok_isObj hlw) (getItem_ok_jget hlw)
    hlwo hp hprov hr hgen
  have hep := errorPath_ok A env doc src lw did m hsrc hlw hlwo hid hok
  exact ⟨by simp [process_document, hdoc, hstep, hep],
    jget_jset_same lw "error" _ hlwo, hm⟩

/-- Witness for C7 at `doc1` under `envBad`, whose Ollama `response`
text is not valid JSON. -/
theorem c7_witness :
    process_document A1 envBad doc1 =
      ([Effect.upsert A1.watchIndex (pyStr (Json.str "1"))
          (jset ctx1 "_llm_watcher" (jset lw1 "error"
            (Json.str "Expecting value: line 1 column 1 (char 0)")))], Except.ok false) ∧
    jget (jset lw1 "error" (Json.str "Expecting value: line 1 column 1 (char 0)")) "error"
      = some (Json.str "Expecting value: line 1 column 1 (char 0)") ∧
    "Expecting value: line 1 column 1 (char 0)" ≠ "" :=
  c7_ollama_decode_failure A1 envBad doc1 ctx1 lw1 (Json.str "1") "p" "p"
    (Json.obj [("response", Json.str "INNER_BAD")]) "INNER_BAD"
    "Expecting value: line 1 column 1 (char 0)"
    rfl rfl rfl rfl rfl rfl rfl rfl rfl rfl rfl rfl rfl (by decide) rfl

/-- C8: for every fetch, if the store answers the search with 404 the
fetch returns the empty batch rather than an error, and any other
non-success (4xx/5xx) search response surfaces as a fetch error (the
HTTPError raised by `raise_for_status`). -/
theorem c8_fetch_404_empty_other_error (env : Env) (A : Args) :
    ((env.searchResp (buildQuery A.batchSize A.retryErrors A.sortField)).status = 404 →
      get_elasticsearch_docs env A = Except.ok []) ∧
    (∀ st, (env.searchResp (buildQuery A.batchSize A.retryErrors A.sortField)).status = st →
      st ≠ 404 → 400 ≤ st → st < 600 →
      get_elasticsearch_docs env A = Except.error (httpError st)) := by
  constructor
  · intro h
    simp [get_elasticsearch_docs, h]
  · intro st hst hne h4 h6
    have hrs : raiseStatus st = true := by
      simp [raiseStatus]
      exact ⟨h4, h6⟩
    simp [get_elasticsearch_docs, hst, hne, hrs]

/-- Witness for C8 under `env404` (nonexistent index) and `env500`
(store failure). -/
theorem c8_witness :
    get_elasticsearch_docs env404 A1 = Except.ok [] ∧
    get_elasticsearch_docs env500 A1 = Except.error (httpError 500) :=
  ⟨(c8_fetch_404_empty_other_error env404 A1).1 rfl,
   (c8_fetch_404_empty_other_error env500 A1).2 500 rfl (by decide) (by decide) (by decide)⟩

/-- C9: for every cycle whose fetched batch is empty, the cycle's
observations are exactly the search and the always-emitted
`"Found 0 documents"` info line: no summary observation is emitted and no
store writes or deletes are issued, and the cycle completes normally (the
outer loop then sleeps until the next interval). -/
theorem c9_empty_cycle_quiet (A : Args) (env : Env)
    (h : get_elasticsearch_docs env A = Except.ok []) :
    worker_loop A env
      = ([Event.search (buildQuery A.batchSize A.retryErrors A.sortField), Event.found 0],
         Except.ok ()) ∧
    (∀ e, Event.eff e ∉ (worker_loop A env).1) ∧
    (∀ a b c, Event.summary a b c ∉ (worker_loop A env).1) := by
  have h1 : worker_loop A env
      = ([Event.search (buildQuery A.batchSize A.retryErrors A.sortField), Event.found 0],
         Except.ok ()) := by
    simp [worker_loop, h, firstErr]
  refine ⟨h1, ?_, ?_⟩
  · intro e
    rw [h1]
    simp
  · intro a b c
    rw [h1]
    simp

/-- Witness for C9 under `env404`, where the fetch returns the empty
batch. -/
theorem c9_witness :
    worker_loop A1 env404
      = ([Event.search (buildQuery A1.batchSize A1.retryErrors A1.sortField), Event.found 0],
         Except.ok ()) :=
  (c9_empty_cycle_quiet A1 env404 (by decide)).1

theorem jset_isObj (j : Json) (k : String) (v : Json) (h : j.isObj = true) :
    (jset j k v).isObj = true := by
  cases j <;> simp_all [jset, Json.isObj]

theorem openai_generate_no_function_call (env : Env) (model : Json) (rp : String) (fmt : Json)
    (E c0 msgv : Json) (cs : List Json)
    (hst : raiseStatus (env.openaiResp model rp fmt).status = false)
    (henv : env.jsonLoads (env.openaiResp model rp fmt).text = Except.ok E)
    (hEo : E.isObj = true)
    (hch : jgetD E "choices" (Json.arr [Json.obj []]) = Json.arr (c0 :: cs))
    (hc0 : c0.isObj = true)
    (hmsg : jgetD c0 "message" (Json.obj []) = msgv)
    (hmo : msgv.isObj = true)
    (hfc : jget msgv "function_call" = none)
    (hld : env.jsonLoads "\x7b\x7d" = Except.ok (Json.obj [])) :
    openai_generate env model rp fmt = Except.ok (Json.obj []) := by
  have hfc2 : jgetD msgv "function_call" (Json.obj []) = Json.obj [] := by
    simp [jgetD, hfc]
  have hargs : jgetD (Json.obj []) "arguments" (Json.str "\x7b\x7d") = Json.str "\x7b\x7d" := rfl
  simp [openai_generate, hst, henv, hEo, hch, hc0, hmsg, hmo, hfc2, hargs, hld]
  rfl

/-- C10: for every OpenAI-provider invocation whose first choice
carries a message without a `function_call`, the arguments string
defaults to `"\x7b\x7d"` and `generate` returns the empty
GenerationResult mapping as a success; the document then completes the
success path, its destination document carrying `_llm_watcher.output`
equal to the empty mapping. -/
theorem c10_openai_no_function_call (A : Args) (env : Env) (doc ctx lw : Json)
    (p rp : String) (E c0 msgv : Json) (cs : List Json)
    (hdoc : doc.isObj = true)
    (hctx : jgetD doc "_source" (Json.obj []) = ctx)
    (hco : ctx.isObj = true)
    (hlw : jget ctx "_llm_watcher" = some lw)
    (hlwo : lw.isObj = true)
    (hp : jgetD lw "prompt" Json.null = Json.str p)
    (hprov : jgetD lw "provider" Json.null = Json.str "openai")
    (hr : env.render p ctx = Except.ok rp)
    (hst : raiseStatus (env.openaiResp (jgetD lw "model" Json.null) rp
             (jgetD lw "format" Json.null)).status = false)
    (henv : env.jsonLoads (env.openaiResp (jgetD lw "model" Json.null) rp
             (jgetD lw "format" Json.null)).text = Except.ok E)
    (hEo : E.isObj = true)
    (hch : jgetD E "choices" (Json.arr [Json.obj []]) = Json.arr (c0 :: cs))
    (hc0 : c0.isObj = true)
    (hmsg : jgetD c0 "message" (Json.obj []) = msgv)
    (hmo : msgv.isObj = true)
    (hfc : jget msgv "function_call" = none)
    (hld : env.jsonLoads "\x7b\x7d" = Except.ok (Json.obj []))
    (hw : raiseStatus (env.upsertStatus (pyStr (jgetD lw "_original_index" Json.null))
            (pyStr (jgetD doc "_id" Json.null)) (successDest ctx lw (Json.obj []))) = false)
    (hd : raiseStatus (env.deleteStatus A.watchIndex (pyStr (jgetD doc "_id" Json.null))) = false) :
    openai_generate env (jgetD lw "model" Json.null) rp (jgetD lw "format" Json.null)
      = Except.ok (Json.obj []) ∧
    process_document A env doc =
      ([Effect.upsert (pyStr (jgetD lw "_original_index" Json.null))
          (pyStr (jgetD doc "_id" Json.null)) (successDest ctx lw (Json.obj [])),
        Effect.delete A.watchIndex (pyStr (jgetD doc "_id" Json.null))], Except.ok true) ∧
    jget (successDest ctx lw (Json.obj [])) "_llm_watcher"
      = some (jset (jset lw "processed" (Json.bool true)) "output" (Json.obj [])) ∧
    jget (jset (jset lw "processed" (Json.bool true)) "output" (Json.obj [])) "output"
      = some (Json.obj []) := by
  have hgen := openai_generate_no_function_call env (jgetD lw "model" Json.null) rp
    (jgetD lw "format" Json.null) E c0 msgv cs hst henv hEo hch hc0 hmsg hmo hfc hld
  have hstep := attemptSteps_openai env doc ctx lw (Json.obj []) p rp
    hctx hco hlw hlwo hp hprov hr hgen
  refine ⟨hgen, process_document_ok A env doc _ _ _ hdoc hstep hw hd, ?_, ?_⟩
  · exact jget_jset_same ctx "_llm_watcher" _ hco
  · exact jget_jset_same _ "output" _ (jset_isObj lw "processed" _ hlwo)

/-- Witness for C10 at `docO` under `envOk`, whose OpenAI response has
a first choice with a message and no `function_call`. -/
theorem c10_witness :
    openai_generate envOk (jgetD lwO "model" Json.null) "p" (jgetD lwO "format" Json.null)
      = Except.ok (Json.obj []) ∧
    process_document A1 envOk docO =
      ([Effect.upsert (pyStr (jgetD lwO "_original_index" Json.null))
          (pyStr (jgetD docO "_id" Json.null)) (successDest ctxO lwO (Json.obj [])),
        Effect.delete A1.watchIndex (pyStr (jgetD docO "_id" Json.null))], Except.ok true) ∧
    jget (successDest ctxO lwO (Json.obj [])) "_llm_watcher"
      = some (jset (jset lwO "processed" (Json.bool true)) "output" (Json.obj [])) ∧
    jget (jset (jset lwO "processed" (Json.bool true)) "output" (Json.obj [])) "output"
      = some (Json.obj []) :=
  c10_openai_no_function_call A1 envOk docO ctxO lwO "p" "p"
    (Json.obj [("choices", Json.arr [Json.obj [("message",
      Json.obj [("role", Json.str "assistant")])]])])
    (Json.obj [("message", Json.obj [("role", Json.str "assistant")])])
    (Json.obj [("role", Json.str "assistant")]) []
    rfl rfl rfl rfl rfl rfl rfl rfl rfl rfl rfl rfl rfl rfl rfl rfl rfl rfl rfl
